import Mathlib

/-!
# The MySQL entity driver and the allow-access handler of the gateway

A shallow embedding of

* `db/drivers/mysql/main.go`: `getTypeData`, `MysqlDriver.Insert`, `MysqlDriver.Update`,
  `MysqlDriver.Delete`, `MysqlDriver.GetOne`, `MysqlDriver.GetLastReceivedPayment`;
* `compliance/handlers/request_handler_allow_access.go`: `RequestHandler.HandlerAllowAccess`.

The database behind `sqlx.DB` is an environment: its answers to `NamedExec` and `Get` are
given by a `Database` value, and every driver operation returns, next to its Go results, the
state of the entity behind the pointer it was handed and the list of statements it sent.
-/

set_option autoImplicit false

namespace Gateway

/-! ## Go values -/

/-- A Go `error` value. `store` is an error handed back by `database/sql`, `sqlx` or the server;
`errorf` is an error the driver builds itself with `fmt.Errorf`. -/
inductive GoError where
  | store (msg : String)
  | errorf (msg : String)
  deriving DecidableEq, Repr

/-- The method `Error()` of an `error`: its message. -/
def GoError.Error : GoError → String
  | .store msg => msg
  | .errorf msg => msg

/-- The value `sql.ErrNoRows` of `database/sql`, whose message is the one the driver compares
against. -/
def ErrNoRows : GoError := .store "sql: no rows in result set"

/-- The five struct types of the package `entities` the driver knows. -/
inductive Variant where
  | AuthorizedTransaction
  | AllowedFi
  | AllowedUser
  | SentTransaction
  | ReceivedPayment
  deriving DecidableEq, Repr

/-- The name of the declared Go type of a variant (what `reflect.Type.Name` gives). -/
def Variant.typeName : Variant → String
  | .AuthorizedTransaction => "AuthorizedTransaction"
  | .AllowedFi => "AllowedFi"
  | .AllowedUser => "AllowedUser"
  | .SentTransaction => "SentTransaction"
  | .ReceivedPayment => "ReceivedPayment"

/-- The dynamic type of the value inside an interface: a pointer to one of the five entity
structs, or anything else (with the text `%T` prints for it, `<nil>` for a nil interface). -/
inductive GoType where
  | entity (v : Variant)
  | other (typeText : String)
  deriving DecidableEq, Repr

/-- The value behind an `entities.Entity`: its dynamic type, the identifier (`*int64`, nil when
absent), the exists flag, and the values of the fields bound to a column (opaque to the driver). -/
structure Entity where
  goType : GoType
  id : Option Int
  existsFlag : Bool
  columns : List (String × String)
  deriving DecidableEq, Repr

/-- Modelled from the spec: `GetId` of `entities.Entity` is declared outside the files under src;
the spec gives every variant "an optional numeric identifier (absent until assigned)". -/
def Entity.GetId (e : Entity) : Option Int := e.id

/-- Modelled from the spec: `SetId` of `entities.Entity` is declared outside the files under src;
it assigns the identifier. -/
def Entity.SetId (e : Entity) (id : Int) : Entity := { e with id := some id }

/-- Modelled from the spec: `SetExists` of `entities.Entity` is declared outside the files under
src; it turns the "exists in store" flag on. -/
def Entity.SetExists (e : Entity) : Entity := { e with existsFlag := true }

/-- A struct tag, as the key/value pairs `reflect.StructTag` parses it into. -/
abbrev StructTag := List (String × String)

/-- The method `Get` of `reflect.StructTag`: the value bound to the key, the empty string when
the tag has no such key. -/
def StructTag.Get : StructTag → String → String
  | [], _ => ""
  | (k, v) :: rest, key => if k = key then v else StructTag.Get rest key

/-- One declared field of a struct, as `reflect.Type.Field` describes it. -/
structure StructField where
  Name : String
  Tag : StructTag
  deriving DecidableEq, Repr

/-- The struct declarations of the package `entities` (outside the files under src): for each
variant its fields in declaration order, what `reflect.TypeOf(*object)` exposes. -/
abbrev Declarations := Variant → List StructField

/-! ## The database -/

/-- A `sql.Result`: what its method `LastInsertId` returns. -/
structure SqlResult where
  LastInsertId : Int × Option GoError
  deriving DecidableEq, Repr

/-- The columns `sqlx` wrote into the destination of a read: the identifier column and the other
bound columns. The exists flag has no column binding and is never written by a scan. -/
structure Row where
  id : Option Int
  columns : List (String × String)
  deriving DecidableEq, Repr

/-- What `sqlx.DB.Get` did: the row it scanned into the destination (none when the destination
was left untouched) and the error it returned. -/
structure GetResult where
  dest : Option Row
  err : Option GoError
  deriving DecidableEq, Repr

/-- The answers of the database handle `d.database`: of `NamedExec(query, arg)` and of
`Get(dest, query, params...)`. -/
structure Database where
  NamedExec : String → Entity → Except GoError SqlResult
  Get : String → List String → Entity → GetResult

/-- A statement handed to the database handle. -/
inductive Statement where
  | NamedExec (query : String) (arg : Entity)
  | Get (query : String) (params : List String)
  deriving DecidableEq, Repr

/-- The effect of a scan on the destination entity: the bound columns are overwritten, the
exists flag is not touched. -/
def Entity.scan (e : Entity) : Option Row → Entity
  | none => e
  | some row => { e with id := row.id, columns := row.columns }

/-- How a call of a driver operation ends: it returns `ret`, leaving the entity in state
`object` after sending the statements `sent` (oldest first), or the Go runtime panics. -/
inductive Outcome (ρ : Type) where
  | returned (ret : ρ) (object : Entity) (sent : List Statement)
  | panicked
  deriving DecidableEq, Repr

/-! ## `getTypeData` -/

/-- The function `getTypeData`: the type switch over the five pointer types; the reflected
struct type and the table name, or the error of the default case. -/
def getTypeData (decl : Declarations) (object : Entity) :
    Except GoError (List StructField × String) :=
  match object.goType with
  | .entity .AuthorizedTransaction => .ok (decl .AuthorizedTransaction, "AuthorizedTransaction")
  | .entity .AllowedFi => .ok (decl .AllowedFi, "AllowedFi")
  | .entity .AllowedUser => .ok (decl .AllowedUser, "AllowedUser")
  | .entity .SentTransaction => .ok (decl .SentTransaction, "SentTransaction")
  | .entity .ReceivedPayment => .ok (decl .ReceivedPayment, "ReceivedPayment")
  | .other typeText => .error (.errorf ("Unknown entity type: " ++ typeText))

/-! ## `MysqlDriver` -/

namespace MysqlDriver

/-- The loop of `Insert` over the fields `i, i+1, ...` still to visit: a field without a `db`
tag is skipped, any other appends its tag to `fieldNames` and `":" + tag` to `fieldValues`. -/
def insertFields : List StructField → List String → List String → List String × List String
  | [], fieldNames, fieldValues => (fieldNames, fieldValues)
  | field :: rest, fieldNames, fieldValues =>
    let tag := field.Tag.Get "db"
    if tag = "" then insertFields rest fieldNames fieldValues
    else insertFields rest (fieldNames ++ [tag]) (fieldValues ++ [":" ++ tag])

/-- The type switch of `Insert` and `Update` around `d.database.NamedExec(query, object)`: each
of the five cases executes the statement; for any other type no case runs (none). -/
def namedExecSwitch (d : Database) (query : String) (object : Entity) :
    Option (Except GoError SqlResult) :=
  match object.goType with
  | .entity .AuthorizedTransaction => some (d.NamedExec query object)
  | .entity .AllowedFi => some (d.NamedExec query object)
  | .entity .AllowedUser => some (d.NamedExec query object)
  | .entity .SentTransaction => some (d.NamedExec query object)
  | .entity .ReceivedPayment => some (d.NamedExec query object)
  | .other _ => none

/-- Lines 51 to 65 of `Insert`: the statement built from the reflected struct type and the table
name. -/
def insertQuery (value : List StructField) (tableName : String) : String :=
  let fields := insertFields value [] []
  "INSERT INTO " ++ tableName ++ " (" ++ ", ".intercalate fields.1 ++
    ") VALUES (" ++ ", ".intercalate fields.2 ++ ");"

/-- The method `MysqlDriver.Insert`; the result is the pair `(id, err)`. -/
def Insert (decl : Declarations) (d : Database) (object : Entity) :
    Outcome (Int × Option GoError) :=
  match getTypeData decl object with
  | .error err => .returned (0, some err) object []
  | .ok (value, tableName) =>
    let query := insertQuery value tableName
    match namedExecSwitch d query object with
    | none => .panicked
    | some (.error err) => .returned (0, some err) object [.NamedExec query object]
    | some (.ok result) =>
      let id := result.LastInsertId.1
      let err := result.LastInsertId.2
      if id = 0 then
        match object.GetId with
        | none =>
          .returned (0, some (.errorf "Not autoincrement but ID nil")) object
            [.NamedExec query object]
        | some own =>
          if err = none then
            .returned (own, err) (object.SetId own).SetExists [.NamedExec query object]
          else .returned (own, err) object [.NamedExec query object]
      else
        if err = none then
          .returned (id, err) (object.SetId id).SetExists [.NamedExec query object]
        else .returned (id, err) object [.NamedExec query object]

/-- The loop of `Update` over the fields still to visit: a field whose `db` tag is `id` or empty
is skipped, any other appends `tag = :tag` to `fields`. -/
def updateFields : List StructField → List String → List String
  | [], fields => fields
  | field :: rest, fields =>
    if field.Tag.Get "db" = "id" ∨ field.Tag.Get "db" = "" then updateFields rest fields
    else updateFields rest (fields ++ [field.Tag.Get "db" ++ " = :" ++ field.Tag.Get "db"])

/-- Lines 110 to 123 of `Update`: the statement built from the reflected struct type and the
table name. -/
def updateQuery (value : List StructField) (tableName : String) : String :=
  let query := "UPDATE " ++ tableName ++ " SET "
  let fields := updateFields value []
  query ++ (", ".intercalate fields ++ " WHERE id = :id;")

/-- The method `MysqlDriver.Update`; the result is `err`. When no case of the type switch runs,
`err` is still nil. -/
def Update (decl : Declarations) (d : Database) (object : Entity) : Outcome (Option GoError) :=
  match getTypeData decl object with
  | .error err => .returned (some err) object []
  | .ok (value, tableName) =>
    let query := updateQuery value tableName
    match namedExecSwitch d query object with
    | none => .returned none object []
    | some (.error err) => .returned (some err) object [.NamedExec query object]
    | some (.ok _) => .returned none object [.NamedExec query object]

/-- The statement of `Delete`. -/
def deleteQuery (tableName : String) : String :=
  "DELETE FROM " ++ tableName ++ " WHERE id = :id;"

/-- The method `MysqlDriver.Delete`; the result is `err`. -/
def Delete (decl : Declarations) (d : Database) (object : Entity) : Outcome (Option GoError) :=
  match getTypeData decl object with
  | .error err => .returned (some err) object []
  | .ok (_, tableName) =>
    let query := deleteQuery tableName
    match d.NamedExec query object with
    | .error err => .returned (some err) object [.NamedExec query object]
    | .ok _ => .returned none object [.NamedExec query object]

/-- The statement of `GetOne`. -/
def selectQuery (tableName whereClause : String) : String :=
  "SELECT * FROM " ++ tableName ++ " WHERE " ++ whereClause ++ " LIMIT 1;"

/-- The method `MysqlDriver.GetOne`; the result is the pair `(entity, err)`, the entity being nil
or the pointer that was passed in (whose target is then in state `object`). -/
def GetOne (decl : Declarations) (d : Database) (object : Entity) (whereClause : String)
    (params : List String) : Outcome (Option Entity × Option GoError) :=
  match getTypeData decl object with
  | .error err => .returned (none, some err) object []
  | .ok (_, tableName) =>
    let query := selectQuery tableName whereClause
    let got := d.Get query params object
    let object := object.scan got.dest
    match got.err with
    | some err =>
      if err.Error = "sql: no rows in result set" then
        .returned (none, none) object [.Get query params]
      else .returned (none, some err) object [.Get query params]
    | none => .returned (some object.SetExists, none) object.SetExists [.Get query params]

/-- The zero value of `entities.ReceivedPayment`, the local variable of
`GetLastReceivedPayment`. -/
def zeroReceivedPayment : Entity :=
  { goType := .entity .ReceivedPayment, id := none, existsFlag := false, columns := [] }

/-- The statement of `GetLastReceivedPayment`. -/
def lastReceivedPaymentQuery : String :=
  "SELECT * FROM ReceivedPayment ORDER BY id DESC LIMIT 1"

/-- The method `MysqlDriver.GetLastReceivedPayment`; the result is the pair
`(receivedPayment, err)`, and `object` is the state of its local variable. -/
def GetLastReceivedPayment (d : Database) : Outcome (Option Entity × Option GoError) :=
  let receivedPayment := zeroReceivedPayment
  let query := lastReceivedPaymentQuery
  let got := d.Get query [] receivedPayment
  let receivedPayment := receivedPayment.scan got.dest
  match got.err with
  | some err =>
    if err.Error = "sql: no rows in result set" then
      .returned (none, none) receivedPayment [.Get query []]
    else .returned (none, some err) receivedPayment [.Get query []]
  | none => .returned (some receivedPayment, none) receivedPayment [.Get query []]

end MysqlDriver

/-! ## `RequestHandler.HandlerAllowAccess` -/

namespace RequestHandler

/-- The parsed body of a form submission: its key/value pairs in order. -/
abbrev Form := List (String × String)

/-- The method `PostFormValue` of `http.Request`: the first value of the key, the empty string
when the form has none. -/
def PostFormValue : Form → String → String
  | [], _ => ""
  | (k, v) :: rest, key => if k = key then v else PostFormValue rest key

/-- The literal `&entities.AllowedUser{...}` of the handler: the fields it sets. -/
structure AllowedUser where
  FiName : String
  FiDomain : String
  FiPublicKey : String
  UserId : String
  AllowedAt : Nat
  deriving DecidableEq, Repr

/-- The literal `&entities.AllowedFi{...}` of the handler: the fields it sets. -/
structure AllowedFi where
  Name : String
  Domain : String
  PublicKey : String
  AllowedAt : Nat
  deriving DecidableEq, Repr

/-- An entity the handler hands to `rh.EntityManager.Persist`. -/
inductive Persisted where
  | AllowedUser (entity : AllowedUser)
  | AllowedFi (entity : AllowedFi)
  deriving DecidableEq, Repr

/-- What the handler leaves on the `http.ResponseWriter`: a status and a body. -/
structure Response where
  status : Nat
  body : String
  deriving DecidableEq, Repr

/-- The run of the handler: the calls of `Persist` it made, in order, and its response. -/
structure Handled where
  persisted : List Persisted
  response : Response
  deriving DecidableEq, Repr

/-- The method `RequestHandler.HandlerAllowAccess`. `now` is the reading of `time.Now()`,
`persist` the answer of `rh.EntityManager.Persist`, and `internalServerError` the response
`server.Write(w, compliance.InternalServerError)` leaves (both declared outside the files under
src). `w.WriteHeader(http.StatusOK)` leaves status 200 and an empty body. -/
def HandlerAllowAccess (persist : Persisted → Option GoError) (internalServerError : Response)
    (now : Nat) (form : Form) : Handled :=
  let name := PostFormValue form "name"
  let domain := PostFormValue form "domain"
  let publicKey := PostFormValue form "public_key"
  let userId := PostFormValue form "user_id"
  let entity : Persisted :=
    if userId ≠ "" then
      .AllowedUser
        { FiName := name, FiDomain := domain, FiPublicKey := publicKey, UserId := userId,
          AllowedAt := now }
    else
      .AllowedFi { Name := name, Domain := domain, PublicKey := publicKey, AllowedAt := now }
  match persist entity with
  | some _ => { persisted := [entity], response := internalServerError }
  | none => { persisted := [entity], response := { status := 200, body := "" } }

end RequestHandler

/-! ## The statements in the words of the specification -/

/-- The column bindings of a declared field list: the `db` tags of the fields in declaration
order, the fields without a binding (empty tag) left out. -/
def boundColumns (fields : List StructField) : List String :=
  (fields.map (fun field => field.Tag.Get "db")).filter (fun c => c ≠ "")

/-- The insertion statement as the specification words it:
`INSERT INTO T (c1, ..., ck) VALUES (:c1, ..., :ck);`. -/
def specInsertStatement (table : String) (columns : List String) : String :=
  "INSERT INTO " ++ table ++ " (" ++ ", ".intercalate columns ++ ") VALUES (" ++
    ", ".intercalate (columns.map (fun c => ":" ++ c)) ++ ");"

/-- The update statement as the specification words it: `UPDATE T SET ` followed by the
assignments `c = :c` of the bound columns other than `id`, followed by ` WHERE id = :id;`. -/
def specUpdateStatement (table : String) (columns : List String) : String :=
  "UPDATE " ++ table ++ " SET " ++
    ", ".intercalate ((columns.filter (fun c => c ≠ "id")).map (fun c => c ++ " = :" ++ c)) ++
    " WHERE id = :id;"

/-! ## Sample data -/

/-- A sample set of struct declarations: each struct has an unexported `exists` field without a
tag and an `Id` field bound to the column `id`. -/
def sampleDeclarations : Declarations
  | .AllowedFi =>
    [⟨"exists", []⟩, ⟨"Id", [("db", "id")]⟩, ⟨"Name", [("db", "name")]⟩,
      ⟨"Domain", [("db", "domain")]⟩, ⟨"PublicKey", [("db", "public_key")]⟩,
      ⟨"AllowedAt", [("db", "allowed_at")]⟩]
  | .AllowedUser =>
    [⟨"exists", []⟩, ⟨"Id", [("db", "id")]⟩, ⟨"FiName", [("db", "fi_name")]⟩,
      ⟨"UserId", [("db", "user_id")]⟩]
  | _ => [⟨"exists", []⟩, ⟨"Id", [("db", "id")]⟩, ⟨"Memo", [("json", "memo"), ("db", "memo")]⟩]

/-- A database that answers every `NamedExec` with `exec` and every `Get` with `get`. -/
def constDatabase (exec : Except GoError SqlResult) (get : GetResult) : Database :=
  { NamedExec := fun _ _ => exec, Get := fun _ _ _ => get }

/-- A freshly constructed `AllowedFi` with the given identifier. -/
def sampleAllowedFi (id : Option Int) : Entity :=
  { goType := .entity .AllowedFi, id := id, existsFlag := false,
    columns := [("name", "Bank A"), ("domain", "banka.com")] }

/-- A value of a type the driver does not know. -/
def sampleStranger : Entity :=
  { goType := .other "*entities.Stranger", id := some 4, existsFlag := false, columns := [] }

/-! ## Lemmas on the embedding -/

theorem getTypeData_entity (decl : Declarations) (object : Entity) (v : Variant)
    (h : object.goType = .entity v) : getTypeData decl object = .ok (decl v, v.typeName) := by
  unfold getTypeData
  rw [h]
  cases v <;> rfl

theorem getTypeData_other (decl : Declarations) (object : Entity) (typeText : String)
    (h : object.goType = .other typeText) :
    getTypeData decl object = .error (.errorf ("Unknown entity type: " ++ typeText)) := by
  unfold getTypeData
  rw [h]

namespace MysqlDriver

theorem namedExecSwitch_entity (d : Database) (query : String) (object : Entity) (v : Variant)
    (h : object.goType = .entity v) :
    namedExecSwitch d query object = some (d.NamedExec query object) := by
  unfold namedExecSwitch
  rw [h]
  cases v <;> rfl

theorem insertFields_eq (fields : List StructField) (fieldNames fieldValues : List String) :
    insertFields fields fieldNames fieldValues =
      (fieldNames ++ boundColumns fields,
        fieldValues ++ (boundColumns fields).map (fun c => ":" ++ c)) := by
  induction fields generalizing fieldNames fieldValues with
  | nil => simp [insertFields, boundColumns]
  | cons field rest ih =>
    unfold insertFields
    by_cases htag : field.Tag.Get "db" = ""
    · simp only [htag, if_true]
      rw [ih]
      simp [boundColumns, htag]
    · simp only [htag, if_false]
      rw [ih]
      simp [boundColumns, htag]

theorem updateFields_eq (value : List StructField) (fields : List String) :
    updateFields value fields =
      fields ++ ((boundColumns value).filter (fun c => c ≠ "id")).map
        (fun c => c ++ " = :" ++ c) := by
  induction value generalizing fields with
  | nil => simp [updateFields, boundColumns]
  | cons field rest ih =>
    unfold updateFields
    by_cases hid : field.Tag.Get "db" = "id"
    · simp only [hid, true_or, if_true]
      rw [ih]
      simp [boundColumns, hid]
    · by_cases htag : field.Tag.Get "db" = ""
      · simp only [htag, or_true, if_true]
        rw [ih]
        simp [boundColumns, htag]
      · simp only [hid, htag, or_self, if_false]
        rw [ih]
        simp [boundColumns, hid, htag]

theorem insertQuery_eq (value : List StructField) (tableName : String) :
    insertQuery value tableName = specInsertStatement tableName (boundColumns value) := by
  simp [insertQuery, specInsertStatement, insertFields_eq]

theorem updateQuery_eq (value : List StructField) (tableName : String) :
    updateQuery value tableName = specUpdateStatement tableName (boundColumns value) := by
  simp [updateQuery, specUpdateStatement, updateFields_eq, String.append_assoc]

end MysqlDriver

/-! ## Unknown types -/

namespace MysqlDriver

/-- C1: for a value whose dynamic type is none of the five entity pointers, `Insert` returns
identifier 0 with the error `Unknown entity type: <type>`, and `Update`, `Delete` and `GetOne`
return that error too (`GetOne` with a nil entity); no statement is sent and the value, so its
identifier and exists flag, is left as it was. -/
theorem unknown_type_is_rejected (decl : Declarations) (d : Database) (object : Entity)
    (typeText whereClause : String) (params : List String)
    (h : object.goType = .other typeText) :
    Insert decl d object =
        .returned (0, some (.errorf ("Unknown entity type: " ++ typeText))) object [] ∧
      Update decl d object =
        .returned (some (.errorf ("Unknown entity type: " ++ typeText))) object [] ∧
      Delete decl d object =
        .returned (some (.errorf ("Unknown entity type: " ++ typeText))) object [] ∧
      GetOne decl d object whereClause params =
        .returned (none, some (.errorf ("Unknown entity type: " ++ typeText))) object [] := by
  refine ⟨?_, ?_, ?_, ?_⟩
  · simp only [Insert, getTypeData_other decl object typeText h]
  · simp only [Update, getTypeData_other decl object typeText h]
  · simp only [Delete, getTypeData_other decl object typeText h]
  · simp only [GetOne, getTypeData_other decl object typeText h]

theorem unknown_type_is_rejected_witness :
    Insert sampleDeclarations (constDatabase (.ok ⟨(9, none)⟩) ⟨none, none⟩) sampleStranger =
        .returned (0, some (.errorf "Unknown entity type: *entities.Stranger")) sampleStranger
          [] ∧
      Update sampleDeclarations (constDatabase (.ok ⟨(9, none)⟩) ⟨none, none⟩) sampleStranger =
        .returned (some (.errorf "Unknown entity type: *entities.Stranger")) sampleStranger
          [] ∧
      Delete sampleDeclarations (constDatabase (.ok ⟨(9, none)⟩) ⟨none, none⟩) sampleStranger =
        .returned (some (.errorf "Unknown entity type: *entities.Stranger")) sampleStranger
          [] ∧
      GetOne sampleDeclarations (constDatabase (.ok ⟨(9, none)⟩) ⟨none, none⟩) sampleStranger
          "id = ?" ["4"] =
        .returned (none, some (.errorf "Unknown entity type: *entities.Stranger"))
          sampleStranger [] :=
  unknown_type_is_rejected sampleDeclarations (constDatabase (.ok ⟨(9, none)⟩) ⟨none, none⟩)
    sampleStranger "*entities.Stranger" "id = ?" ["4"] rfl

/-! ## Reads -/

/-- C2: for an entity of a known variant, when the read of `GetOne` reports that no row matched
(an error whose message is `sql: no rows in result set`), `GetOne` returns a nil entity and a nil
error and the exists flag of the entity is what it was; and `GetLastReceivedPayment` returns a
nil entity and a nil error when its read reports that no row matched. -/
theorem no_rows_is_nil_nil (decl : Declarations) (d : Database) (object : Entity) (v : Variant)
    (whereClause : String) (params : List String) (hv : object.goType = .entity v) :
    (∀ err, (d.Get (selectQuery v.typeName whereClause) params object).err = some err →
        err.Error = "sql: no rows in result set" →
        GetOne decl d object whereClause params =
            .returned (none, none)
              (object.scan (d.Get (selectQuery v.typeName whereClause) params object).dest)
              [.Get (selectQuery v.typeName whereClause) params] ∧
          (object.scan
              (d.Get (selectQuery v.typeName whereClause) params object).dest).existsFlag =
            object.existsFlag) ∧
      (∀ err, (d.Get lastReceivedPaymentQuery [] zeroReceivedPayment).err = some err →
        err.Error = "sql: no rows in result set" →
        GetLastReceivedPayment d =
          .returned (none, none)
            (zeroReceivedPayment.scan (d.Get lastReceivedPaymentQuery [] zeroReceivedPayment).dest)
            [.Get lastReceivedPaymentQuery []]) := by
  refine ⟨?_, ?_⟩
  · intro err herr hmsg
    refine ⟨?_, ?_⟩
    · simp only [GetOne, getTypeData_entity decl object v hv, herr, hmsg, if_true]
    · cases (d.Get (selectQuery v.typeName whereClause) params object).dest <;> rfl
  · intro err herr hmsg
    simp only [GetLastReceivedPayment, herr, hmsg, if_true]

theorem no_rows_is_nil_nil_witness :
    GetOne sampleDeclarations (constDatabase (.ok ⟨(9, none)⟩) ⟨none, some ErrNoRows⟩)
          (sampleAllowedFi (some 3)) "id = ?" ["3"] =
        .returned (none, none) (sampleAllowedFi (some 3))
          [.Get "SELECT * FROM AllowedFi WHERE id = ? LIMIT 1;" ["3"]] ∧
      GetLastReceivedPayment (constDatabase (.ok ⟨(9, none)⟩) ⟨none, some ErrNoRows⟩) =
        .returned (none, none) zeroReceivedPayment
          [.Get "SELECT * FROM ReceivedPayment ORDER BY id DESC LIMIT 1" []] :=
  ⟨((no_rows_is_nil_nil sampleDeclarations
      (constDatabase (.ok ⟨(9, none)⟩) ⟨none, some ErrNoRows⟩) (sampleAllowedFi (some 3))
      .AllowedFi "id = ?" ["3"] rfl).1 ErrNoRows rfl rfl).1,
    (no_rows_is_nil_nil sampleDeclarations
      (constDatabase (.ok ⟨(9, none)⟩) ⟨none, some ErrNoRows⟩) (sampleAllowedFi (some 3))
      .AllowedFi "id = ?" ["3"] rfl).2 ErrNoRows rfl rfl⟩

/-- C3, as the claim states it, fails: when the read of `GetOne` on an `AllowedFi` fails with
`connection refused`, the entity `GetOne` returns is nil, not the entity that was passed in. -/
theorem failed_read_does_not_return_the_entity :
    GetOne sampleDeclarations
          (constDatabase (.ok ⟨(9, none)⟩) ⟨none, some (.store "connection refused")⟩)
          (sampleAllowedFi (some 3)) "id = ?" ["3"] =
        .returned (none, some (.store "connection refused")) (sampleAllowedFi (some 3))
          [.Get "SELECT * FROM AllowedFi WHERE id = ? LIMIT 1;" ["3"]] ∧
      ¬ ∃ err after sent,
        GetOne sampleDeclarations
            (constDatabase (.ok ⟨(9, none)⟩) ⟨none, some (.store "connection refused")⟩)
            (sampleAllowedFi (some 3)) "id = ?" ["3"] =
          .returned (some (sampleAllowedFi (some 3)), err) after sent := by
  have hrun :
      GetOne sampleDeclarations
          (constDatabase (.ok ⟨(9, none)⟩) ⟨none, some (.store "connection refused")⟩)
          (sampleAllowedFi (some 3)) "id = ?" ["3"] =
        .returned (none, some (.store "connection refused")) (sampleAllowedFi (some 3))
          [.Get "SELECT * FROM AllowedFi WHERE id = ? LIMIT 1;" ["3"]] := by
    decide
  refine ⟨hrun, ?_⟩
  rintro ⟨err, after, sent, h⟩
  rw [hrun] at h
  cases h

/-- C3 (amended): for an entity of a known variant, when the read of `GetOne` fails with an
error other than "no rows matched", `GetOne` returns a nil entity together with that error. -/
theorem failed_read_returns_nil_and_error (decl : Declarations) (d : Database) (object : Entity)
    (v : Variant) (whereClause : String) (params : List String) (err : GoError)
    (hv : object.goType = .entity v)
    (herr : (d.Get (selectQuery v.typeName whereClause) params object).err = some err)
    (hmsg : err.Error ≠ "sql: no rows in result set") :
    GetOne decl d object whereClause params =
      .returned (none, some err)
        (object.scan (d.Get (selectQuery v.typeName whereClause) params object).dest)
        [.Get (selectQuery v.typeName whereClause) params] := by
  simp only [GetOne, getTypeData_entity decl object v hv, herr, hmsg, if_false]

theorem failed_read_returns_nil_and_error_witness :
    GetOne sampleDeclarations
        (constDatabase (.ok ⟨(9, none)⟩) ⟨none, some (.store "connection refused")⟩)
        (sampleAllowedFi (some 3)) "id = ?" ["3"] =
      .returned (none, some (.store "connection refused")) (sampleAllowedFi (some 3))
        [.Get "SELECT * FROM AllowedFi WHERE id = ? LIMIT 1;" ["3"]] :=
  failed_read_returns_nil_and_error sampleDeclarations
    (constDatabase (.ok ⟨(9, none)⟩) ⟨none, some (.store "connection refused")⟩)
    (sampleAllowedFi (some 3)) .AllowedFi "id = ?" ["3"] (.store "connection refused") rfl rfl
    (by decide)

/-! ## Identity assignment -/

/-- C4: for an entity of a known variant whose insertion statement executes without error and
whose generated-identifier read returns `g` without error: when `g` is not zero, `Insert` returns
`g` with a nil error and leaves the entity with identifier `g` and the exists flag on; when `g` is
zero and the entity carries the identifier `c`, `Insert` returns `c` with a nil error and leaves
the entity with identifier `c` and the exists flag on; when `g` is zero and the entity carries no
identifier, `Insert` returns 0 with the error `Not autoincrement but ID nil` and leaves the entity
as it was. -/
theorem insert_assigns_identity (decl : Declarations) (d : Database) (object : Entity)
    (v : Variant) (g : Int) (hv : object.goType = .entity v)
    (hexec : d.NamedExec (insertQuery (decl v) v.typeName) object = .ok ⟨(g, none)⟩) :
    (g ≠ 0 →
        Insert decl d object =
          .returned (g, none) { object with id := some g, existsFlag := true }
            [.NamedExec (insertQuery (decl v) v.typeName) object]) ∧
      (g = 0 → ∀ c, object.id = some c →
        Insert decl d object =
          .returned (c, none) { object with id := some c, existsFlag := true }
            [.NamedExec (insertQuery (decl v) v.typeName) object]) ∧
      (g = 0 → object.id = none →
        Insert decl d object =
          .returned (0, some (.errorf "Not autoincrement but ID nil")) object
            [.NamedExec (insertQuery (decl v) v.typeName) object]) := by
  refine ⟨?_, ?_, ?_⟩
  · intro hg
    simp [Insert, getTypeData_entity decl object v hv,
      namedExecSwitch_entity d _ object v hv, hexec, hg, Entity.SetId, Entity.SetExists]
  · intro hg c hc
    simp [Insert, getTypeData_entity decl object v hv,
      namedExecSwitch_entity d _ object v hv, hexec, hg, hc, Entity.GetId, Entity.SetId,
      Entity.SetExists]
  · intro hg hc
    simp [Insert, getTypeData_entity decl object v hv,
      namedExecSwitch_entity d _ object v hv, hexec, hg, hc, Entity.GetId]

theorem insert_assigns_identity_witness :
    Insert sampleDeclarations (constDatabase (.ok ⟨(12, none)⟩) ⟨none, none⟩)
          (sampleAllowedFi none) =
        .returned (12, none) { sampleAllowedFi none with id := some 12, existsFlag := true }
          [.NamedExec
            ("INSERT INTO AllowedFi (id, name, domain, public_key, allowed_at) VALUES " ++
              "(:id, :name, :domain, :public_key, :allowed_at);")
            (sampleAllowedFi none)] ∧
      Insert sampleDeclarations (constDatabase (.ok ⟨(0, none)⟩) ⟨none, none⟩)
          (sampleAllowedFi (some 5)) =
        .returned (5, none) { sampleAllowedFi (some 5) with existsFlag := true }
          [.NamedExec
            ("INSERT INTO AllowedFi (id, name, domain, public_key, allowed_at) VALUES " ++
              "(:id, :name, :domain, :public_key, :allowed_at);")
            (sampleAllowedFi (some 5))] ∧
      Insert sampleDeclarations (constDatabase (.ok ⟨(0, none)⟩) ⟨none, none⟩)
          (sampleAllowedFi none) =
        .returned (0, some (.errorf "Not autoincrement but ID nil")) (sampleAllowedFi none)
          [.NamedExec
            ("INSERT INTO AllowedFi (id, name, domain, public_key, allowed_at) VALUES " ++
              "(:id, :name, :domain, :public_key, :allowed_at);")
            (sampleAllowedFi none)] :=
  ⟨(insert_assigns_identity sampleDeclarations (constDatabase (.ok ⟨(12, none)⟩) ⟨none, none⟩)
      (sampleAllowedFi none) .AllowedFi 12 rfl rfl).1 (by decide),
    (insert_assigns_identity sampleDeclarations (constDatabase (.ok ⟨(0, none)⟩) ⟨none, none⟩)
      (sampleAllowedFi (some 5)) .AllowedFi 0 rfl rfl).2.1 rfl 5 rfl,
    (insert_assigns_identity sampleDeclarations (constDatabase (.ok ⟨(0, none)⟩) ⟨none, none⟩)
      (sampleAllowedFi none) .AllowedFi 0 rfl rfl).2.2 rfl rfl⟩

/-- C5, as the claim states it, fails: `Insert` returns a nil error with identifier 0 for an
`AllowedFi` that carries the caller-assigned identifier 0 on a table without autoincrement, and
with identifier -3 when the generated-identifier read returns -3. -/
theorem insert_succeeds_with_identifier_zero :
    Insert sampleDeclarations (constDatabase (.ok ⟨(0, none)⟩) ⟨none, none⟩)
          (sampleAllowedFi (some 0)) =
        .returned (0, none) { sampleAllowedFi (some 0) with existsFlag := true }
          [.NamedExec
            ("INSERT INTO AllowedFi (id, name, domain, public_key, allowed_at) VALUES " ++
              "(:id, :name, :domain, :public_key, :allowed_at);")
            (sampleAllowedFi (some 0))] ∧
      Insert sampleDeclarations (constDatabase (.ok ⟨(-3, none)⟩) ⟨none, none⟩)
          (sampleAllowedFi none) =
        .returned (-3, none) { sampleAllowedFi none with id := some (-3), existsFlag := true }
          [.NamedExec
            ("INSERT INTO AllowedFi (id, name, domain, public_key, allowed_at) VALUES " ++
              "(:id, :name, :domain, :public_key, :allowed_at);")
            (sampleAllowedFi none)] := by
  constructor <;> decide

/-- C5 (amended): for an entity of a known variant, whenever `Insert` returns with a nil error,
the statement was executed, the returned identifier is the identifier of the entity afterwards,
and it is the generated identifier when that is not zero and the identifier the caller assigned
otherwise; so it is positive whenever the generated identifier is not negative and the identifier
the caller assigned, if any, is positive. -/
theorem insert_success_identifier (decl : Declarations) (d : Database) (object after : Entity)
    (v : Variant) (id : Int) (sent : List Statement) (hv : object.goType = .entity v)
    (hret : Insert decl d object = .returned (id, none) after sent) :
    after.id = some id ∧
      (∃ result, d.NamedExec (insertQuery (decl v) v.typeName) object = .ok result ∧
        (result.LastInsertId.1 ≠ 0 ∧ id = result.LastInsertId.1 ∨
          result.LastInsertId.1 = 0 ∧ object.id = some id) ∧
        (0 ≤ result.LastInsertId.1 → (∀ c, object.id = some c → 0 < c) → 0 < id)) := by
  simp only [Insert, getTypeData_entity decl object v hv,
    namedExecSwitch_entity d _ object v hv] at hret
  cases hexec : d.NamedExec (insertQuery (decl v) v.typeName) object with
  | error e => simp [hexec] at hret
  | ok result =>
    obtain ⟨⟨g, gerr⟩⟩ := result
    simp only [hexec] at hret
    by_cases hg : g = 0
    · cases hown : object.id with
      | none => simp [hg, Entity.GetId, hown] at hret
      | some c =>
        cases gerr with
        | some e => simp [hg, Entity.GetId, hown] at hret
        | none =>
          simp [hg, Entity.GetId, hown, Entity.SetId, Entity.SetExists] at hret
          obtain ⟨hid, hafter, -⟩ := hret
          subst hid
          subst hafter
          refine ⟨rfl, _, rfl, Or.inr ⟨hg, rfl⟩, ?_⟩
          intro _ hpos
          exact hpos c rfl
    · cases gerr with
      | some e => simp [hg] at hret
      | none =>
        simp [hg, Entity.SetId, Entity.SetExists] at hret
        obtain ⟨hid, hafter, -⟩ := hret
        subst hid
        subst hafter
        refine ⟨rfl, _, rfl, Or.inl ⟨hg, rfl⟩, ?_⟩
        intro hnonneg _
        exact lt_of_le_of_ne hnonneg (Ne.symm hg)

theorem insert_success_identifier_witness :
    (sampleAllowedFi (some 5)).SetExists.id = some 5 ∧
      (∃ result,
        (constDatabase (.ok ⟨(0, none)⟩) ⟨none, none⟩).NamedExec
            (insertQuery (sampleDeclarations .AllowedFi) Variant.AllowedFi.typeName)
            (sampleAllowedFi (some 5)) = .ok result ∧
        (result.LastInsertId.1 ≠ 0 ∧ (5 : Int) = result.LastInsertId.1 ∨
          result.LastInsertId.1 = 0 ∧ (sampleAllowedFi (some 5)).id = some 5) ∧
        (0 ≤ result.LastInsertId.1 → (∀ c, (sampleAllowedFi (some 5)).id = some c → 0 < c) →
          (0 : Int) < 5)) :=
  insert_success_identifier sampleDeclarations (constDatabase (.ok ⟨(0, none)⟩) ⟨none, none⟩)
    (sampleAllowedFi (some 5)) (sampleAllowedFi (some 5)).SetExists .AllowedFi 5
    [.NamedExec (insertQuery (sampleDeclarations .AllowedFi) Variant.AllowedFi.typeName)
      (sampleAllowedFi (some 5))] rfl (by decide)

/-! ## The exists flag -/

/-- C6: every call of `Insert`, `GetOne`, `Update` and `Delete` returns, and the exists flag of
the entity changes only on confirmed success: after `Insert` it differs from before only when the
returned error is nil (and it is then on); after `GetOne` it differs from before only when the
read returned no error and `GetOne` returns the entity with a nil error (and it is then on);
`Update` and `Delete` leave the entity as it was. So a flag that was off is still off after an
`Insert` that returns an error and after a `GetOne` that returns a nil entity. -/
theorem exists_flag_only_on_success (decl : Declarations) (d : Database) (object : Entity)
    (whereClause : String) (params : List String) :
    (∃ ret after sent, Insert decl d object = .returned ret after sent ∧
        (after.existsFlag ≠ object.existsFlag → ret.2 = none ∧ after.existsFlag = true) ∧
        (object.existsFlag = false → ret.2 ≠ none → after.existsFlag = false)) ∧
      (∃ ret after sent, GetOne decl d object whereClause params = .returned ret after sent ∧
        (after.existsFlag ≠ object.existsFlag →
          ret = (some after, none) ∧ after.existsFlag = true ∧
            ∃ query, sent = [.Get query params] ∧ (d.Get query params object).err = none) ∧
        (object.existsFlag = false → ret.1 = none → after.existsFlag = false)) ∧
      (∃ ret sent, Update decl d object = .returned ret object sent) ∧
      (∃ ret sent, Delete decl d object = .returned ret object sent) := by
  cases hty : object.goType with
  | other typeText =>
    simp only [Insert, GetOne, Update, Delete, getTypeData_other decl object typeText hty]
    exact ⟨⟨_, _, _, rfl, by simp, by simp⟩, ⟨_, _, _, rfl, by simp, by simp⟩, ⟨_, _, rfl⟩,
      ⟨_, _, rfl⟩⟩
  | entity v =>
    refine ⟨?_, ?_, ?_, ?_⟩
    · simp only [Insert, getTypeData_entity decl object v hty,
        namedExecSwitch_entity d _ object v hty]
      cases hexec : d.NamedExec (insertQuery (decl v) v.typeName) object with
      | error e => exact ⟨_, _, _, rfl, by simp, by simp⟩
      | ok result =>
        obtain ⟨⟨g, gerr⟩⟩ := result
        simp only [Entity.GetId]
        split_ifs with hg herr herr <;> (try split) <;>
          exact ⟨_, _, _, rfl, by simp_all [Entity.SetId, Entity.SetExists], by simp_all⟩
    · simp only [GetOne, getTypeData_entity decl object v hty]
      have hscan : ∀ dest, (object.scan dest).existsFlag = object.existsFlag := by
        intro dest
        cases dest <;> rfl
      split
      · split_ifs with hmsg
        · exact ⟨_, _, _, rfl, by simp [hscan], by simp [hscan]⟩
        · exact ⟨_, _, _, rfl, by simp [hscan], by simp [hscan]⟩
      · rename_i herr
        exact ⟨_, _, _, rfl, fun _ => ⟨rfl, rfl, _, rfl, herr⟩, by simp⟩
    · simp only [Update, getTypeData_entity decl object v hty,
        namedExecSwitch_entity d _ object v hty]
      cases d.NamedExec (updateQuery (decl v) v.typeName) object with
      | error e => exact ⟨_, _, rfl⟩
      | ok result => exact ⟨_, _, rfl⟩
    · simp only [Delete, getTypeData_entity decl object v hty]
      cases d.NamedExec (deleteQuery v.typeName) object with
      | error e => exact ⟨_, _, rfl⟩
      | ok result => exact ⟨_, _, rfl⟩

/-! ## The statements -/

/-- C7: for an entity of a known variant with type name `T`, `Update` returns after executing
exactly one statement, with the entity as its argument: `UPDATE T SET ` followed by the
assignments `c = :c`, joined by `, `, one for each declared field whose `db` tag `c` is neither
empty nor `id`, in declaration order, followed by ` WHERE id = :id;`. -/
theorem update_statement (decl : Declarations) (d : Database) (object : Entity) (v : Variant)
    (hv : object.goType = .entity v) :
    ∃ err, Update decl d object =
      .returned err object
        [.NamedExec
          ("UPDATE " ++ v.typeName ++ " SET " ++
            ", ".intercalate
              ((((decl v).map (fun field => field.Tag.Get "db")).filter
                (fun c => c ≠ "" ∧ c ≠ "id")).map (fun c => c ++ " = :" ++ c)) ++
            " WHERE id = :id;")
          object] := by
  have hquery : updateQuery (decl v) v.typeName =
      "UPDATE " ++ v.typeName ++ " SET " ++
        ", ".intercalate
          ((((decl v).map (fun field => field.Tag.Get "db")).filter
            (fun c => c ≠ "" ∧ c ≠ "id")).map (fun c => c ++ " = :" ++ c)) ++
        " WHERE id = :id;" := by
    rw [updateQuery_eq]
    simp only [specUpdateStatement, boundColumns, List.filter_filter]
    congr 5
    funext c
    simp [Bool.and_comm]
  simp only [Update, getTypeData_entity decl object v hv,
    namedExecSwitch_entity d _ object v hv, hquery]
  cases d.NamedExec _ object with
  | error e => exact ⟨_, rfl⟩
  | ok result => exact ⟨_, rfl⟩

theorem update_statement_witness :
    ∃ err, Update sampleDeclarations (constDatabase (.ok ⟨(0, none)⟩) ⟨none, none⟩)
        (sampleAllowedFi (some 5)) =
      .returned err (sampleAllowedFi (some 5))
        [.NamedExec
          ("UPDATE AllowedFi SET name = :name, domain = :domain, public_key = :public_key, " ++
            "allowed_at = :allowed_at WHERE id = :id;")
          (sampleAllowedFi (some 5))] :=
  update_statement sampleDeclarations (constDatabase (.ok ⟨(0, none)⟩) ⟨none, none⟩)
    (sampleAllowedFi (some 5)) .AllowedFi rfl

/-- C8: for an entity of a known variant with type name `T`, `Insert` returns after executing
exactly one statement, with the entity as its argument:
`INSERT INTO T (c1, ..., ck) VALUES (:c1, ..., :ck);`, where `c1, ..., ck` are the non-empty `db`
tags of the declared fields in declaration order (a field without one is skipped) and each
placeholder is the column name after a colon. The statement is a function of the variant and its
declaration alone: the values of the entity and the answers of the database do not enter it. -/
theorem insert_statement (decl : Declarations) (d : Database) (object : Entity) (v : Variant)
    (hv : object.goType = .entity v) :
    ∃ ret after, Insert decl d object =
      .returned ret after
        [.NamedExec
          ("INSERT INTO " ++ v.typeName ++ " (" ++
            ", ".intercalate
              (((decl v).map (fun field => field.Tag.Get "db")).filter (fun c => c ≠ "")) ++
            ") VALUES (" ++
            ", ".intercalate
              ((((decl v).map (fun field => field.Tag.Get "db")).filter (fun c => c ≠ "")).map
                (fun c => ":" ++ c)) ++
            ");")
          object] := by
  have hquery : insertQuery (decl v) v.typeName =
      "INSERT INTO " ++ v.typeName ++ " (" ++
        ", ".intercalate
          (((decl v).map (fun field => field.Tag.Get "db")).filter (fun c => c ≠ "")) ++
        ") VALUES (" ++
        ", ".intercalate
          ((((decl v).map (fun field => field.Tag.Get "db")).filter (fun c => c ≠ "")).map
            (fun c => ":" ++ c)) ++
        ");" := by
    rw [insertQuery_eq]
    rfl
  simp only [Insert, getTypeData_entity decl object v hv,
    namedExecSwitch_entity d _ object v hv, hquery]
  cases d.NamedExec _ object with
  | error e => exact ⟨_, _, rfl⟩
  | ok result =>
    simp only [Entity.GetId]
    split_ifs <;> (try split) <;> exact ⟨_, _, rfl⟩

theorem insert_statement_witness :
    ∃ ret after, Insert sampleDeclarations (constDatabase (.ok ⟨(12, none)⟩) ⟨none, none⟩)
        (sampleAllowedFi none) =
      .returned ret after
        [.NamedExec
          ("INSERT INTO AllowedFi (id, name, domain, public_key, allowed_at) VALUES " ++
            "(:id, :name, :domain, :public_key, :allowed_at);")
          (sampleAllowedFi none)] :=
  insert_statement sampleDeclarations (constDatabase (.ok ⟨(12, none)⟩) ⟨none, none⟩)
    (sampleAllowedFi none) .AllowedFi rfl

/-! ## Errors of the store -/

end MysqlDriver

/-! ## The allow-access handler -/

namespace RequestHandler

/-- C9: for every form submission the handler calls `Persist` exactly once: on an `AllowedUser`
with `FiName`, `FiDomain`, `FiPublicKey`, `UserId` the form values `name`, `domain`, `public_key`,
`user_id` when `user_id` is not empty, on an `AllowedFi` with `Name`, `Domain`, `PublicKey` the
form values `name`, `domain`, `public_key` when it is empty. The response has status 200 exactly
when `Persist` returned no error (the internal-server-error response having another status), and
is otherwise the internal-server-error response, whatever the error. -/
theorem allow_access_persists_one_record (persist : Persisted → Option GoError)
    (internalServerError : Response) (now : Nat) (form : Form)
    (hstatus : internalServerError.status ≠ 200) :
    ∃ entity, (HandlerAllowAccess persist internalServerError now form).persisted = [entity] ∧
      (PostFormValue form "user_id" ≠ "" →
        entity = .AllowedUser
          { FiName := PostFormValue form "name", FiDomain := PostFormValue form "domain",
            FiPublicKey := PostFormValue form "public_key",
            UserId := PostFormValue form "user_id", AllowedAt := now }) ∧
      (PostFormValue form "user_id" = "" →
        entity = .AllowedFi
          { Name := PostFormValue form "name", Domain := PostFormValue form "domain",
            PublicKey := PostFormValue form "public_key", AllowedAt := now }) ∧
      ((HandlerAllowAccess persist internalServerError now form).response.status = 200 ↔
        persist entity = none) ∧
      (persist entity ≠ none →
        (HandlerAllowAccess persist internalServerError now form).response =
          internalServerError) := by
  unfold HandlerAllowAccess
  by_cases huser : PostFormValue form "user_id" = ""
  · simp only [huser, ne_eq, not_true_eq_false, if_false]
    cases hp : persist (.AllowedFi
        { Name := PostFormValue form "name", Domain := PostFormValue form "domain",
          PublicKey := PostFormValue form "public_key", AllowedAt := now }) with
    | none => exact ⟨_, rfl, by simp, by simp, by simp [hp], by simp [hp]⟩
    | some e => exact ⟨_, rfl, by simp, by simp, by simp [hp, hstatus], by simp⟩
  · simp only [huser, ne_eq, not_false_eq_true, if_true]
    cases hp : persist (.AllowedUser
        { FiName := PostFormValue form "name", FiDomain := PostFormValue form "domain",
          FiPublicKey := PostFormValue form "public_key",
          UserId := PostFormValue form "user_id", AllowedAt := now }) with
    | none => exact ⟨_, rfl, by simp, by simp [huser], by simp [hp], by simp [hp]⟩
    | some e => exact ⟨_, rfl, by simp, by simp [huser], by simp [hp, hstatus], by simp⟩

theorem allow_access_persists_one_record_witness :
    ∃ entity,
      (HandlerAllowAccess (fun _ => none) ⟨500, "internal_server_error"⟩ 1700000000
          [("name", "Bank A"), ("domain", "banka.com"), ("public_key", "GABC"),
            ("user_id", "u1")]).persisted = [entity] ∧
      (PostFormValue
          [("name", "Bank A"), ("domain", "banka.com"), ("public_key", "GABC"), ("user_id", "u1")]
          "user_id" ≠ "" →
        entity = .AllowedUser
          { FiName := "Bank A", FiDomain := "banka.com", FiPublicKey := "GABC", UserId := "u1",
            AllowedAt := 1700000000 }) ∧
      (PostFormValue
          [("name", "Bank A"), ("domain", "banka.com"), ("public_key", "GABC"), ("user_id", "u1")]
          "user_id" = "" →
        entity = .AllowedFi
          { Name := "Bank A", Domain := "banka.com", PublicKey := "GABC",
            AllowedAt := 1700000000 }) ∧
      ((HandlerAllowAccess (fun _ => none) ⟨500, "internal_server_error"⟩ 1700000000
          [("name", "Bank A"), ("domain", "banka.com"), ("public_key", "GABC"),
            ("user_id", "u1")]).response.status = 200 ↔
        (fun _ => none : Persisted → Option GoError) entity = none) ∧
      ((fun _ => none : Persisted → Option GoError) entity ≠ none →
        (HandlerAllowAccess (fun _ => none) ⟨500, "internal_server_error"⟩ 1700000000
          [("name", "Bank A"), ("domain", "banka.com"), ("public_key", "GABC"),
            ("user_id", "u1")]).response = ⟨500, "internal_server_error"⟩) :=
  allow_access_persists_one_record (fun _ => none) ⟨500, "internal_server_error"⟩ 1700000000
    [("name", "Bank A"), ("domain", "banka.com"), ("public_key", "GABC"), ("user_id", "u1")]
    (by decide)

end RequestHandler

end Gateway
